import Mathlib

/-!
Verification of the grid database layer of `eb_gridmaker`
(`src/eb_gridmaker/dtb.py`) and the component-switching helper
(`src/eb_gridmaker/utils/physics.py`), as a shallow embedding in Lean.

Modelling conventions:
* A numeric flux array is an ordered sequence of rationals (`Flux`).
* The SQLite database file is modelled as `DBState`: the three tables
  created by `create_ceb_db` (`parameters`, `curves`, `auxiliary`), each a
  list of rows in stored (rowid-scan) order.
* Each call of `insert_to_table` / `update_last_id` issues its own
  `conn.commit()` in the Python source, so every step of
  `insert_observation` is durable on its own; an interruption between
  steps leaves the prefix of steps committed.  `insert_observation_upto k`
  models the execution that performs the first `k` of the three steps and
  then fails.
* Python exceptions are modelled by `Except PyError`.
-/

namespace EBGridmaker

/-- Flux array: an ordered sequence of floating-point samples, modelled as
rationals. -/
abbrev Flux := List ℚ

/-- Python exceptions raised by the database layer. -/
inductive PyError where
  /-- `ValueError` with a fixed message. -/
  | valueError (msg : String)
  /-- `IOError` with a fixed message. -/
  | ioError (msg : String)
  /-- `TypeError` raised by a call with missing required positional arguments. -/
  | typeError (msg : String)
  /-- the `ValueError(f'Invalid passbands: {invalid_passbands}.')` of
  `get_observations`, carrying the list of offending passbands. -/
  | invalidPassbands (bad : List String)
  /-- `sqlite3.OperationalError` raised by `cursor.execute` on a malformed
  SQL statement. -/
  | operationalError (msg : String)
  deriving DecidableEq, Repr

/-- One row of the `parameters` table: the node identifier (first column,
`id`) followed by the remaining parameter values.  The values themselves
come from the external physics object via `aux.getattr_from_collumn_name`
and `aux.typing` (outside this layer), so they enter the model as opaque
rationals. -/
structure ParamRow where
  id : Int
  vals : List ℚ
  deriving DecidableEq, Repr

/-- One row of the `curves` table: the node identifier `id` plus one encoded
flux array per passband column, aligned with `config.PASSBAND_COLLUMNS`. -/
structure CurveRow where
  id : Int
  fluxes : List Flux
  deriving DecidableEq, Repr

/-- The state of one shard database file: the three tables created by
`create_ceb_db`, each as its list of rows in stored order.  `auxiliary`
rows are `(_rowid_, last_index)` pairs. -/
structure DBState where
  parameters : List ParamRow
  curves : List CurveRow
  auxiliary : List (Int × Int)
  deriving DecidableEq, Repr

/-- State produced by `create_ceb_db` on a fresh path: the three tables exist and are empty. -/
def create_ceb_db : DBState := ⟨[], [], []⟩

/-- Model of `insert_to_table('parameters', ...)` followed by `conn.commit()`:
appends one row to the `parameters` table. -/
def insert_params (db : DBState) (row : ParamRow) : DBState :=
  { db with parameters := db.parameters ++ [row] }

/-- Model of `insert_to_table('curves', ...)` followed by `conn.commit()`: appends
one row to the `curves` table. -/
def insert_curves (db : DBState) (row : CurveRow) : DBState :=
  { db with curves := db.curves ++ [row] }

/-- Model of `update_last_id`: `REPLACE INTO auxiliary (_rowid_, last_index)
VALUES (0, int(last_id))` followed by `conn.commit()`.  `REPLACE` deletes
any existing row whose `_rowid_` is `0` and inserts the new `(0, last_id)`
row in its place. -/
def update_last_id (aux : List (Int × Int)) (last_id : Int) : List (Int × Int) :=
  (0, last_id) :: aux.filter (fun r => r.1 ≠ 0)

/-- Model of `insert_observation` executed only up to its first `k` steps (each of
the three steps commits on its own in the source, so an execution that
fails after `k` completed steps leaves exactly those `k` steps durable):
step 1 inserts the `parameters` row for `iden`, step 2 inserts the
`curves` row for `iden`, step 3 overwrites the `auxiliary` marker with
`iden`. -/
def insert_observation_upto (k : Nat) (db : DBState) (iden : Int)
    (vals : List ℚ) (fluxes : List Flux) : DBState :=
  let db1 := if 1 ≤ k then insert_params db ⟨iden, vals⟩ else db
  let db2 := if 2 ≤ k then insert_curves db1 ⟨iden, fluxes⟩ else db1
  if 3 ≤ k then { db2 with auxiliary := update_last_id db2.auxiliary iden } else db2

/-- Model of `insert_observation` run to completion: all three steps. -/
def insert_observation (db : DBState) (iden : Int)
    (vals : List ℚ) (fluxes : List Flux) : DBState :=
  insert_observation_upto 3 db iden vals fluxes

/-- Model of `search_for_breakpoint`: reads every `last_index` value of the
`auxiliary` table (in stored order); an empty result returns `0`, a first
value contained in `ids` returns `np.where(last_idx[0] == ids)[0][0]`,
i.e. the first index of that value in `ids`, and any other first value
raises `ValueError`. -/
def search_for_breakpoint (db : DBState) (ids : List Int) : Except PyError Nat :=
  let last_idx := db.auxiliary.map (fun r => r.2)
  match last_idx with
  | [] => .ok 0
  | v :: _ =>
    if v ∈ ids then
      .ok (ids.indexOf v)
    else
      .error (.valueError ("IDs of already calculated objects do not correspond to the " ++
        "generated ID. Breakpoint cannot be generated."))

/-- Model of `merge_databases`.  The argument `db_list` models a Python `list` (so
the `type(db_list) not in [list, tuple]` guard passes); `dest` is the
state of the file at `result_db`, `none` when no such file exists.  The
returned pair is the destination file state after the call together with
the call's outcome.  After both guards pass the source executes
`create_ceb_db(result_db)` — a call with one positional argument to a
function whose signature `create_ceb_db(db_name, param_columns,
param_types)` has no defaults — which raises `TypeError` before any
connection to `result_db` is opened, so the destination file is never
created and no row is ever copied. -/
def merge_databases (db_list : List String) (dest : Option DBState) :
    Option DBState × Except PyError Unit :=
  if db_list.length ≤ 1 then
    (dest, .error (.valueError "You need at least two databases to merge."))
  else
    match dest with
    | some f => (some f, .error (.ioError "Output file already exists."))
    | none =>
      (none, .error (.typeError
        ("create_ceb_db() missing 2 required positional arguments: " ++
         "'param_columns' and 'param_types'")))

/-- Value of the column named `p` in a `curves` row, for the schema whose
passband columns are `cols`: the flux stored at the position of `p` in
`cols`. -/
def rowValue (cols : List String) (row : CurveRow) (p : String) : Flux :=
  row.fluxes.getD (cols.indexOf p) []

/-- Model of `resfile[passband].append(v)`: appends `v` to the entry of key `p` in
the result dictionary (the key is always present, having been initialised
by the dict comprehension). -/
def dictAppend (p : String) (v : Flux) (res : List (String × List Flux)) :
    List (String × List Flux) :=
  res.map (fun e => if e.1 = p then (e.1, e.2 ++ [v]) else e)

/-- Keys of the Python dict comprehension `{passband: [] for passband in
passbands}`: each requested passband once, in first-occurrence order. -/
def dictKeys : List String → List String
  | [] => []
  | p :: ps => p :: (dictKeys ps).filter (fun q => q ≠ p)

/-- Processing of one fetched row in `get_observations`: when the trailing
`id` column is in `ids`, the loop `for ii, passband in
enumerate(passbands)` appends `row[ii]` — the value of column
`passbands[ii]` — to `resfile[passband]`. -/
def processRow (cols : List String) (ids : List Int) (passbands : List String)
    (res : List (String × List Flux)) (row : CurveRow) : List (String × List Flux) :=
  if row.id ∈ ids then
    passbands.foldl (fun r p => dictAppend p (rowValue cols row p) r) res
  else
    res

/-- Model of `get_observations`.  Modelled from the spec: the module `config` is not
under `src/`; its `PASSBAND_COLLUMN_MAP.values()` — the known,
schema-declared passband column names — enters the model as the explicit
argument `cols`, and the `curves` table scanned by `SELECT ... FROM
curves` (no `ORDER BY`) yields its rows in stored order, as the list
`curves`.  The source first rejects any requested passband not among
`cols`.  When `passbands` is empty that check passes vacuously, but
`psbnd_str = ', '.join(passbands) + ', id'` then makes the query the
malformed `SELECT , id FROM curves`, so `cursor.execute(sql)` raises
`sqlite3.OperationalError` before any row is read.  Otherwise the source
scans every row and keeps those whose `id` is in `ids`. -/
def get_observations (cols : List String) (curves : List CurveRow)
    (ids : List Int) (passbands : List String) :
    Except PyError (List (String × List Flux)) :=
  let invalid := passbands.filter (fun p => p ∉ cols)
  if invalid ≠ [] then
    .error (.invalidPassbands invalid)
  else if passbands = [] then
    .error (.operationalError
      "SQL syntax error near the comma: SELECT , id FROM curves is malformed")
  else
    .ok (curves.foldl (processRow cols ids passbands)
      ((dictKeys passbands).map (fun p => (p, ([] : List Flux)))))

/-- Model of `invert_potential` of `utils/physics.py`, over rationals. -/
def invert_potential (potential mass_ratio : ℚ) : ℚ :=
  potential / mass_ratio + (1 / 2) * (mass_ratio - 1) / mass_ratio

/-- Model of `switch_components` of `utils/physics.py`: returns the input unchanged
when `t2 < t1`, and otherwise the relabelled system with reciprocal mass
ratio, swapped radii and temperatures, and inverted potentials. -/
def switch_components (mass_ratio r1 r2 t1 t2 inclination omega1 omega2 : ℚ) :
    List ℚ × ℚ × ℚ :=
  if t2 < t1 then
    ([mass_ratio, r1, r2, t1, t2, inclination], omega1, omega2)
  else
    ([1 / mass_ratio, r2, r1, t2, t1, inclination],
     invert_potential omega2 mass_ratio, invert_potential omega1 mass_ratio)

/-- A batch of completed node writes against a fresh shard database:
`create_ceb_db` followed by one full `insert_observation` per element. -/
def write_batch (ws : List (Int × List ℚ × List Flux)) : DBState :=
  ws.foldl (fun db w => insert_observation db w.1 w.2.1 w.2.2) create_ceb_db

/-! ### Helper lemmas -/

lemma indexOf_first (v : Int) :
    ∀ (ids : List Int), v ∈ ids →
      ids.get? (ids.indexOf v) = some v ∧
        ∀ j, j < ids.indexOf v → ids.get? j ≠ some v := by
  intro ids
  induction ids with
  | nil => intro h; cases h
  | cons a l ih =>
    intro h
    by_cases hva : a = v
    · subst hva
      refine ⟨?_, ?_⟩
      · simp [List.indexOf_cons_self]
      · intro j hj
        rw [List.indexOf_cons_self] at hj
        omega
    · have hmem : v ∈ l := by
        rcases List.mem_cons.mp h with h1 | h1
        · exact absurd h1.symm hva
        · exact h1
      have hio : (a :: l).indexOf v = (l.indexOf v) + 1 :=
        List.indexOf_cons_ne l hva
      obtain ⟨hget, hmin⟩ := ih hmem
      refine ⟨by rw [hio]; simpa using hget, ?_⟩
      intro j hj
      rw [hio] at hj
      match j with
      | 0 =>
        simp only [List.get?_cons_zero]
        intro hc
        exact hva (Option.some.inj hc)
      | j' + 1 =>
        simpa using hmin j' (by omega)

lemma insert_observation_auxiliary (db : DBState) (iden : Int)
    (vals : List ℚ) (fluxes : List Flux) :
    (insert_observation db iden vals fluxes).auxiliary =
      update_last_id db.auxiliary iden := rfl

lemma update_last_id_singleton (aux : List (Int × Int)) (v : Int)
    (h : aux = [] ∨ ∃ w, aux = [(0, w)]) :
    update_last_id aux v = [(0, v)] := by
  rcases h with h | ⟨w, h⟩ <;> subst h <;> simp [update_last_id]

lemma write_batch_aux_invariant :
    ∀ (ws : List (Int × List ℚ × List Flux)) (db : DBState),
      db.auxiliary = [] ∨ (∃ w, db.auxiliary = [(0, w)]) →
      (((ws.foldl (fun db w => insert_observation db w.1 w.2.1 w.2.2) db).auxiliary = [] ∨
        ∃ w, (ws.foldl (fun db w => insert_observation db w.1 w.2.1 w.2.2) db).auxiliary =
          [(0, w)]) ∧
       (ws ≠ [] →
        ∃ w, (ws.foldl (fun db w => insert_observation db w.1 w.2.1 w.2.2) db).auxiliary =
          [(0, w)])) := by
  intro ws
  induction ws with
  | nil => exact fun db h => ⟨h, fun hc => absurd rfl hc⟩
  | cons w ws ih =>
    intro db h
    have hstep : (insert_observation db w.1 w.2.1 w.2.2).auxiliary = [(0, w.1)] := by
      rw [insert_observation_auxiliary]
      exact update_last_id_singleton db.auxiliary w.1 h
    have hstep' : (insert_observation db w.1 w.2.1 w.2.2).auxiliary = [] ∨
        ∃ v, (insert_observation db w.1 w.2.1 w.2.2).auxiliary = [(0, v)] :=
      Or.inr ⟨w.1, hstep⟩
    obtain ⟨hP, hne⟩ := ih (insert_observation db w.1 w.2.1 w.2.2) hstep'
    refine ⟨by simpa using hP, ?_⟩
    intro _
    rcases eq_or_ne ws [] with hws | hws
    · subst hws
      exact ⟨w.1, by simpa using hstep⟩
    · simpa using hne hws

lemma foldl_dictAppend (g : String → Flux) :
    ∀ (L : List String), L.Nodup → ∀ (s : List (String × List Flux)),
      L.foldl (fun r q => dictAppend q (g q) r) s =
        s.map (fun e => if e.1 ∈ L then (e.1, e.2 ++ [g e.1]) else e) := by
  intro L
  induction L with
  | nil => intro _ s; simp
  | cons a L ih =>
    intro hnd s
    have ha : a ∉ L := (List.nodup_cons.mp hnd).1
    rw [List.foldl_cons, ih (List.nodup_cons.mp hnd).2, dictAppend, List.map_map]
    congr 1
    funext e
    by_cases he : e.1 = a
    · simp only [Function.comp_apply, he, if_pos rfl, List.mem_cons, true_or, if_true]
      rw [if_neg (by simpa [he] using ha)]
    · simp only [Function.comp_apply, he, if_false, List.mem_cons, false_or]

lemma processRow_canonical (cols : List String) (ids : List Int)
    (passbands : List String) (hnd : passbands.Nodup)
    (f : String → List Flux) (row : CurveRow) :
    processRow cols ids passbands (passbands.map (fun p => (p, f p))) row =
      (if row.id ∈ ids then
        passbands.map (fun p => (p, f p ++ [rowValue cols row p]))
      else
        passbands.map (fun p => (p, f p))) := by
  by_cases hr : row.id ∈ ids
  · rw [processRow, if_pos hr, if_pos hr,
      foldl_dictAppend (rowValue cols row) passbands hnd, List.map_map]
    apply List.map_congr_left
    intro p hp
    simp [hp]
  · simp [processRow, hr]

lemma foldl_processRow (cols : List String) (ids : List Int)
    (passbands : List String) (hnd : passbands.Nodup) :
    ∀ (curves : List CurveRow) (f : String → List Flux),
      curves.foldl (processRow cols ids passbands)
          (passbands.map (fun p => (p, f p))) =
        passbands.map (fun p =>
          (p, f p ++ (curves.filter (fun r => decide (r.id ∈ ids))).map
            (fun r => rowValue cols r p))) := by
  intro curves
  induction curves with
  | nil => intro f; simp
  | cons row rest ih =>
    intro f
    rw [List.foldl_cons, processRow_canonical cols ids passbands hnd f row]
    by_cases hr : row.id ∈ ids
    · rw [if_pos hr, ih (fun p => f p ++ [rowValue cols row p])]
      simp [List.filter_cons, hr]
    · rw [if_neg hr, ih f]
      simp [List.filter_cons, hr]

lemma dictKeys_eq_self : ∀ (L : List String), L.Nodup → dictKeys L = L := by
  intro L
  induction L with
  | nil => intro; rfl
  | cons p ps ih =>
    intro hnd
    have hp : p ∉ ps := (List.nodup_cons.mp hnd).1
    rw [dictKeys, ih (List.nodup_cons.mp hnd).2]
    congr 1
    rw [List.filter_eq_self]
    intro q hq
    simp only [ne_eq, decide_not, Bool.not_eq_true', decide_eq_false_iff_not]
    intro hqp
    exact hp (hqp ▸ hq)

lemma map_fst_pairs (g : String → List Flux) :
    ∀ L : List String, (L.map (fun p => (p, g p))).map Prod.fst = L := by
  intro L
  induction L with
  | nil => rfl
  | cons a L ih => simp only [List.map_cons, ih]

lemma valid_filter_eq_nil (cols passbands : List String)
    (hvalid : ∀ p ∈ passbands, p ∈ cols) :
    passbands.filter (fun p => decide (p ∉ cols)) = [] := by
  rw [List.filter_eq_nil_iff]
  intro p hp
  simpa using hvalid p hp

/-- Behaviour of `get_observations` on a nonempty, valid, duplicate-free
passband request: it succeeds, with one entry per requested passband in
request order, holding the fluxes of exactly the rows whose `id` is in
`ids`, in the stored row order of the `curves` table. -/
lemma get_observations_ok (cols : List String) (curves : List CurveRow)
    (ids : List Int) (passbands : List String)
    (hvalid : ∀ p ∈ passbands, p ∈ cols) (hnd : passbands.Nodup)
    (hne : passbands ≠ []) :
    get_observations cols curves ids passbands =
      .ok (passbands.map (fun p =>
        (p, (curves.filter (fun r => decide (r.id ∈ ids))).map
          (fun r => rowValue cols r p)))) := by
  rw [get_observations]
  simp only [valid_filter_eq_nil cols passbands hvalid, ne_eq, not_true_eq_false,
    if_false, dictKeys_eq_self passbands hnd]
  rw [if_neg hne, foldl_processRow cols ids passbands hnd curves (fun _ => [])]
  simp

/-! ### Theorems -/

/-- C3: `search_for_breakpoint` on a database whose `auxiliary` table is
empty (fresh database, no progress marker) returns `0`; and whenever the
first marker value `v` occurs in the candidate sequence `ids`, it returns
`.ok i` where `i` is the position of `v` in `ids` (the least index at
which `v` occurs). -/
theorem C3_breakpoint_found (p : List ParamRow) (c : List CurveRow)
    (aux : List (Int × Int)) (ids : List Int) :
    (aux = [] → search_for_breakpoint ⟨p, c, aux⟩ ids = .ok 0) ∧
    (∀ r v rest, aux = (r, v) :: rest → v ∈ ids →
      ∃ i, search_for_breakpoint ⟨p, c, aux⟩ ids = .ok i ∧
        ids.get? i = some v ∧ ∀ j, j < i → ids.get? j ≠ some v) := by
  constructor
  · intro h
    subst h
    rfl
  · intro r v rest h hv
    subst h
    obtain ⟨hget, hmin⟩ := indexOf_first v ids hv
    exact ⟨ids.indexOf v, by simp [search_for_breakpoint, hv], hget, hmin⟩

/-- Witness for `C3_breakpoint_found`: a fresh database, and a database
whose marker `3` sits at position `2` of the batch `[1, 2, 3]`. -/
theorem C3_breakpoint_found_witness :
    search_for_breakpoint ⟨[], [], []⟩ [1, 2, 3] = .ok 0 ∧
    ∃ i, search_for_breakpoint ⟨[], [], [(0, 3)]⟩ [1, 2, 3] = .ok i ∧
      ([1, 2, 3] : List Int).get? i = some 3 ∧
      ∀ j, j < i → ([1, 2, 3] : List Int).get? j ≠ some 3 :=
  ⟨(C3_breakpoint_found [] [] [] [1, 2, 3]).1 rfl,
   (C3_breakpoint_found [] [] [(0, 3)] [1, 2, 3]).2 0 3 [] rfl (by decide)⟩

/-- C8: the `auxiliary` (progress-marker) table of a shard database never
holds more than one row after any batch of node writes, and holds exactly
one row — `(_rowid_ 0, last id)` — once at least one node has been
written: `update_last_id` always `REPLACE`s the row at `_rowid_ = 0`
rather than appending. -/
theorem C8_marker_singleton (ws : List (Int × List ℚ × List Flux)) :
    (write_batch ws).auxiliary.length ≤ 1 ∧
    (ws ≠ [] → (write_batch ws).auxiliary.length = 1) := by
  obtain ⟨hP, hne⟩ := write_batch_aux_invariant ws create_ceb_db (Or.inl rfl)
  constructor
  · rcases hP with h | ⟨w, h⟩ <;> rw [write_batch, h] <;> simp
  · intro h
    obtain ⟨w, hw⟩ := hne h
    rw [write_batch, hw]
    rfl

/-- Witness for `C8_marker_singleton`: one completed write. -/
theorem C8_marker_singleton_witness :
    (write_batch [(5, [], [])]).auxiliary.length = 1 :=
  (C8_marker_singleton [(5, [], [])]).2 (by decide)

/-- C1, counterexample: the three steps of `insert_observation` are not one
atomic unit.  Starting from a fresh database and failing after step 1 (the
parameters insert, which has already issued its own `conn.commit()`), the
parameters row for node `7` remains visible while no curves row for it
exists — a partial row survives the failure, contradicting the claim. -/
theorem C1_counterexample :
    (insert_observation_upto 1 create_ceb_db 7 [1, 2] [[1]]).parameters =
      [⟨7, [1, 2]⟩] ∧
    (insert_observation_upto 1 create_ceb_db 7 [1, 2] [[1]]).curves = [] := by
  constructor <;> rfl

/-- C1, amended: each of the three steps of `insert_observation` commits
independently, so a failure between the parameters insert and the curves
insert leaves the committed parameters row visible; however, the progress
marker is overwritten only as the last step, so whenever an execution
prefix of `insert_observation` changes the `auxiliary` marker at all, both
the parameters row and the curves row of that node are already
committed. -/
theorem C1_amended (k : Nat) (db : DBState) (iden : Int) (vals : List ℚ)
    (fluxes : List Flux)
    (h : (insert_observation_upto k db iden vals fluxes).auxiliary ≠ db.auxiliary) :
    (⟨iden, vals⟩ : ParamRow) ∈ (insert_observation_upto k db iden vals fluxes).parameters ∧
    (⟨iden, fluxes⟩ : CurveRow) ∈ (insert_observation_upto k db iden vals fluxes).curves := by
  by_cases h3 : 3 ≤ k
  · have h2 : 2 ≤ k := by omega
    have h1 : 1 ≤ k := by omega
    simp [insert_observation_upto, insert_params, insert_curves, h1, h2, h3]
  · exfalso
    apply h
    by_cases h2 : 2 ≤ k <;> by_cases h1 : 1 ≤ k <;>
      simp [insert_observation_upto, insert_params, insert_curves, h1, h2, h3]

/-- Witness for `C1_amended` at a concrete completed write. -/
theorem C1_amended_witness :
    (⟨5, []⟩ : ParamRow) ∈ (insert_observation_upto 3 create_ceb_db 5 [] []).parameters ∧
    (⟨5, []⟩ : CurveRow) ∈ (insert_observation_upto 3 create_ceb_db 5 [] []).curves :=
  C1_amended 3 create_ceb_db 5 [] [] (by decide)

/-- C2: `merge_databases` can never merge anything.  On any call that
passes the argument and destination guards (here: two sources, fresh
destination), the source executes `create_ceb_db(result_db)` — one
positional argument for a three-parameter function without defaults — and
raises `TypeError` before the destination file is created or any row is
copied, contradicting the claim that every parameters and curves row of
each source is copied with its node identifier preserved. -/
theorem C2_merge_always_fails :
    merge_databases ["shard_a.db", "shard_b.db"] none =
      (none, .error (.typeError
        ("create_ceb_db() missing 2 required positional arguments: " ++
         "'param_columns' and 'param_types'"))) := rfl

/-- C5, counterexample: the source-list guards of `merge_databases` run
before the destination-exists check, so a call with an existing
destination but an invalid source list (here the empty list) raises
`ValueError`, not the `IOError` standing for `DestinationExistsError`. -/
theorem C5_counterexample :
    merge_databases [] (some create_ceb_db) =
      (some create_ceb_db,
       .error (.valueError "You need at least two databases to merge.")) ∧
    (PyError.valueError "You need at least two databases to merge.") ≠
      (PyError.ioError "Output file already exists.") := by
  exact ⟨rfl, by decide⟩

/-- C5, amended: for every call whose source list holds at least two
databases and whose destination path names an existing file,
`merge_databases` raises `IOError('Output file already exists.')` (the
`DestinationExistsError` of the spec) and returns with the destination
file exactly as it was — no table created, dropped or written. -/
theorem C5_amended (db_list : List String) (dest : DBState)
    (h : 2 ≤ db_list.length) :
    merge_databases db_list (some dest) =
      (some dest, .error (.ioError "Output file already exists.")) := by
  have hlen : ¬ db_list.length ≤ 1 := by omega
  simp [merge_databases, hlen]

/-- Witness for `C5_amended` at a concrete two-source call. -/
theorem C5_amended_witness :
    merge_databases ["a.db", "b.db"] (some create_ceb_db) =
      (some create_ceb_db, .error (.ioError "Output file already exists.")) :=
  C5_amended ["a.db", "b.db"] create_ceb_db (by decide)

/-- C4: whenever the `auxiliary` table is nonempty and its first
`last_index` value `v` does not occur in the candidate sequence `ids`,
`search_for_breakpoint` raises the `ValueError` standing for
`BreakpointMismatchError`, and in particular returns no index. -/
theorem C4_breakpoint_mismatch (p : List ParamRow) (c : List CurveRow)
    (r v : Int) (rest : List (Int × Int)) (ids : List Int) (h : v ∉ ids) :
    search_for_breakpoint ⟨p, c, (r, v) :: rest⟩ ids =
      .error (.valueError ("IDs of already calculated objects do not correspond to the " ++
        "generated ID. Breakpoint cannot be generated.")) := by
  simp [search_for_breakpoint, h]

/-- Witness for `C4_breakpoint_mismatch`: marker `7` against batch
`[1, 2, 3]`. -/
theorem C4_breakpoint_mismatch_witness :
    search_for_breakpoint ⟨[], [], [(0, 7)]⟩ [1, 2, 3] =
      .error (.valueError ("IDs of already calculated objects do not correspond to the " ++
        "generated ID. Breakpoint cannot be generated.")) :=
  C4_breakpoint_mismatch [] [] 0 7 [] [1, 2, 3] (by decide)

/-- C9: `switch_components` returns its input unchanged when `t2 < t1`,
and otherwise the relabelled system with reciprocal mass ratio, exchanged
radii and temperatures, and each returned potential equal to
`invert_potential` of the other component's input potential; in both
cases the returned primary temperature (list position 3) is at least the
returned secondary temperature (list position 4). -/
theorem C9_switch_components (q r1 r2 t1 t2 inc ω1 ω2 : ℚ) :
    (t2 < t1 → switch_components q r1 r2 t1 t2 inc ω1 ω2 =
      ([q, r1, r2, t1, t2, inc], ω1, ω2)) ∧
    (¬ t2 < t1 → switch_components q r1 r2 t1 t2 inc ω1 ω2 =
      ([1 / q, r2, r1, t2, t1, inc],
       invert_potential ω2 q, invert_potential ω1 q)) ∧
    (∃ ta tb, (switch_components q r1 r2 t1 t2 inc ω1 ω2).1.get? 3 = some ta ∧
      (switch_components q r1 r2 t1 t2 inc ω1 ω2).1.get? 4 = some tb ∧ tb ≤ ta) := by
  refine ⟨fun h => by simp [switch_components, h],
          fun h => by simp [switch_components, h], ?_⟩
  by_cases h : t2 < t1
  · exact ⟨t1, t2, by simp [switch_components, h], by simp [switch_components, h], h.le⟩
  · exact ⟨t2, t1, by simp [switch_components, h], by simp [switch_components, h],
      le_of_not_lt h⟩

/-- Witness for `C9_switch_components`: both branches at concrete
inputs. -/
theorem C9_switch_components_witness :
    switch_components 2 3 4 10 5 1 7 8 = ([2, 3, 4, 10, 5, 1], 7, 8) ∧
    switch_components 2 3 4 5 10 1 7 8 =
      ([1 / 2, 4, 3, 10, 5, 1], invert_potential 8 2, invert_potential 7 2) :=
  ⟨(C9_switch_components 2 3 4 10 5 1 7 8).1 (by norm_num),
   (C9_switch_components 2 3 4 5 10 1 7 8).2.1 (by norm_num)⟩

/-- C6, counterexample: `get_observations` performs `SELECT ... FROM
curves` with no `ORDER BY`, so matching rows come back in stored row
order, not ascending node-id order.  With rows stored for node `5` before
node `2`, the result for passband `V` is `[flux₅, flux₂]`, not the
ascending-id `[flux₂, flux₅]` the claim requires. -/
theorem C6_counterexample :
    get_observations ["V"] [⟨5, [[5]]⟩, ⟨2, [[2]]⟩] [2, 5] ["V"] =
      .ok [("V", [[5], [2]])] ∧
    ([[5], [2]] : List Flux) ≠ [[2], [5]] := by
  exact ⟨rfl, by decide⟩

/-- C6, amended: for every stored `curves` table, requested id set and
nonempty duplicate-free sequence of valid passbands, `get_observations`
returns, for each requested passband, exactly the flux arrays of the
stored rows whose node id is in the requested set — no others — in the
stored row order of the table (hence an empty sequence per passband when
no stored node matches).  An empty request instead raises
`sqlite3.OperationalError` from the malformed `SELECT , id FROM curves`
query. -/
theorem C6_query_filtering (cols : List String) (curves : List CurveRow)
    (ids : List Int) (passbands : List String)
    (hvalid : ∀ p ∈ passbands, p ∈ cols) (hnd : passbands.Nodup)
    (hne : passbands ≠ []) :
    get_observations cols curves ids passbands =
      .ok (passbands.map (fun p =>
        (p, (curves.filter (fun r => decide (r.id ∈ ids))).map
          (fun r => rowValue cols r p)))) :=
  get_observations_ok cols curves ids passbands hvalid hnd hne

/-- Witness for `C6_query_filtering`: one stored node, two passbands. -/
theorem C6_query_filtering_witness :
    get_observations ["V", "B"] [⟨1, [[1], [10]]⟩] [1] ["V", "B"] =
      .ok (["V", "B"].map (fun p =>
        (p, (([⟨1, [[1], [10]]⟩] : List CurveRow).filter
            (fun r => decide (r.id ∈ ([1] : List Int)))).map
          (fun r => rowValue ["V", "B"] r p)))) :=
  C6_query_filtering ["V", "B"] [⟨1, [[1], [10]]⟩] [1] ["V", "B"]
    (by decide) (by decide) (by decide)

/-- C7: whenever some requested passband is not among the schema-declared
passband columns, `get_observations` raises the `ValueError` standing for
`InvalidPassbandError`, and does so before reading any curve data (its
outcome does not depend on the `curves` table at all); conversely, when
every requested passband is known, no such error is ever raised (an empty
request raises `sqlite3.OperationalError` instead, which is not the
`InvalidPassbandError` of the claim). -/
theorem C7_invalid_passband (cols : List String) (curves : List CurveRow)
    (ids : List Int) (passbands : List String) :
    ((∃ p ∈ passbands, p ∉ cols) →
      (get_observations cols curves ids passbands =
        .error (.invalidPassbands (passbands.filter (fun p => decide (p ∉ cols)))) ∧
       ∀ curves' : List CurveRow,
         get_observations cols curves' ids passbands =
           get_observations cols curves ids passbands)) ∧
    ((∀ p ∈ passbands, p ∈ cols) →
      ∀ bad : List String,
        get_observations cols curves ids passbands ≠ .error (.invalidPassbands bad)) := by
  constructor
  · rintro ⟨p, hp, hpc⟩
    have hne : passbands.filter (fun q => decide (q ∉ cols)) ≠ [] := by
      intro hc
      have h2 := List.filter_eq_nil_iff.mp hc p hp
      simp at h2
      exact hpc h2
    constructor
    · rw [get_observations, if_pos hne]
    · intro curves'
      rw [get_observations, if_pos hne, get_observations, if_pos hne]
  · intro hvalid bad
    have hnil : passbands.filter (fun q => decide (q ∉ cols)) = [] :=
      valid_filter_eq_nil cols passbands hvalid
    rw [get_observations, if_neg (by simp [hnil]; try exact hvalid)]
    by_cases hpe : passbands = []
    · rw [if_pos hpe]
      simp
    · rw [if_neg hpe]
      simp

/-- Witness for `C7_invalid_passband`: an unknown passband `X` is
rejected; a request of the known passband `V` raises no
invalid-passband error. -/
theorem C7_invalid_passband_witness :
    (get_observations ["V"] [] [] ["X"] =
      .error (.invalidPassbands ((["X"] : List String).filter
        (fun p => decide (p ∉ (["V"] : List String)))))) ∧
    get_observations ["V"] [] [] ["V"] ≠ .error (.invalidPassbands ["X"]) :=
  ⟨((C7_invalid_passband ["V"] [] [] ["X"]).1 ⟨"X", by decide, by decide⟩).1,
   (C7_invalid_passband ["V"] [] [] ["V"]).2 (by decide) ["X"]⟩

/-- C10, counterexample: a duplicated requested passband is appended once
per occurrence for every matching row, so the per-passband sequences are
not mutually aligned.  Requesting `["V", "V", "B"]` over one matching row
yields two entries for `V` and one for `B`. -/
theorem C10_counterexample :
    get_observations ["V", "B"] [⟨1, [[1], [2]]⟩] [1] ["V", "V", "B"] =
      .ok [("V", [[1], [1]]), ("B", [[2]])] ∧
    ([[1], [1]] : List Flux).length ≠ ([[2]] : List Flux).length := by
  exact ⟨rfl, by decide⟩

/-- C10, amended: for every successful call with a nonempty list of
pairwise-distinct requested passbands, the returned mapping has exactly
the requested passbands as keys (in request order), and all its
per-passband sequences have the same length — one entry per matching
stored row — so the results for different passbands are mutually aligned
(an empty request does not succeed: it raises
`sqlite3.OperationalError`). -/
theorem C10_alignment (cols : List String) (curves : List CurveRow)
    (ids : List Int) (passbands : List String)
    (hvalid : ∀ p ∈ passbands, p ∈ cols) (hnd : passbands.Nodup)
    (hne : passbands ≠ []) :
    ∃ out, get_observations cols curves ids passbands = .ok out ∧
      out.map Prod.fst = passbands ∧
      ∀ e ∈ out, e.2.length =
        (curves.filter (fun r => decide (r.id ∈ ids))).length := by
  refine ⟨_, get_observations_ok cols curves ids passbands hvalid hnd hne, ?_, ?_⟩
  · exact map_fst_pairs _ passbands
  · intro e he
    obtain ⟨p, _, rfl⟩ := List.mem_map.mp he
    simp

/-- Witness for `C10_alignment`: two passbands over one matching and one
non-matching row. -/
theorem C10_alignment_witness :
    ∃ out, get_observations ["V", "B"] [⟨1, [[1], [2]]⟩, ⟨3, [[4], [5]]⟩]
        [1] ["V", "B"] = .ok out ∧
      out.map Prod.fst = ["V", "B"] ∧
      ∀ e ∈ out, e.2.length =
        (([⟨1, [[1], [2]]⟩, ⟨3, [[4], [5]]⟩] : List CurveRow).filter
          (fun r => decide (r.id ∈ ([1] : List Int)))).length :=
  C10_alignment ["V", "B"] [⟨1, [[1], [2]]⟩, ⟨3, [[4], [5]]⟩] [1] ["V", "B"]
    (by decide) (by decide) (by decide)

end EBGridmaker
